import Mathlib

/-!
Shallow embedding of the WhatsApp authentication agent (Variant A, OTP-based)
and its collaborators:

* `src/whatsapp_agent/agents/auth_agent.py`   — `AuthAgent` state machine
* `src/whatsapp_agent/services/session_manager.py` — `Session`, `SessionManager`
* `src/whatsapp_agent/services/message_router.py`  — `MessageRouter.route`

Python dicts are modelled as association lists with unique keys (`getKey`,
`setKey`, `delKey`); Python exceptions (`ValueError`, `IndexError`, `KeyError`)
are modelled by the `Except PyError` monad; the external HTTP client
(`ExternalClientAPI`) is modelled as a record of pure functions, exactly the
surface the agent consumes.
-/

set_option autoImplicit false

/-- Python `d.get(k)` / `d[k]` lookup on a dict modelled as an association
list: the first binding of the key, if any. -/
def getKey {α : Type} : List (String × α) → String → Option α
  | [], _ => none
  | (k, v) :: rest, key => if k = key then some v else getKey rest key

/-- Python `d[k] = v`: replace the value of an existing key in place, or
append a fresh binding at the end (dict insertion order). -/
def setKey {α : Type} : List (String × α) → String → α → List (String × α)
  | [], key, v => [(key, v)]
  | (k, w) :: rest, key, v =>
      if k = key then (key, v) :: rest else (k, w) :: setKey rest key v

/-- Python `d.pop(k, None)`: remove the binding of the key if present.
Dict keys are unique, so removing every matching binding coincides with
removing the one binding. -/
def delKey {α : Type} : List (String × α) → String → List (String × α)
  | [], _ => []
  | (k, v) :: rest, key =>
      if k = key then delKey rest key else (k, v) :: delKey rest key

/-- Python `k in d`. -/
def hasKey {α : Type} (d : List (String × α)) (key : String) : Bool :=
  (getKey d key).isSome

/-- Python `s.strip()`: drop leading and trailing whitespace. -/
def pyStrip (s : String) : String :=
  String.mk (((s.data.dropWhile Char.isWhitespace).reverse.dropWhile
    Char.isWhitespace).reverse)

/-- Python `s.split(sep)` for a one-character separator: split at every
occurrence, keeping empty parts. Always returns at least one part. -/
def pySplitOnChar (c : Char) : List Char → List (List Char)
  | [] => [[]]
  | x :: rest =>
      let r := pySplitOnChar c rest
      if x = c then [] :: r
      else
        match r with
        | [] => [[x]]
        | h :: t => (x :: h) :: t

/-- `pat` is a prefix of `l` (as Boolean). -/
def isPrefixL : List Char → List Char → Bool
  | [], _ => true
  | _ :: _, [] => false
  | a :: as, b :: bs => a = b && isPrefixL as bs

/-- `pat` occurs as a contiguous sublist of `l` (Python `pat in s`). -/
def hasSubstr (l pat : List Char) : Bool :=
  match l with
  | [] => isPrefixL pat []
  | _ :: rest => isPrefixL pat l || hasSubstr rest pat

/-- Python `pat in s` on strings. -/
def strContains (s pat : String) : Bool :=
  hasSubstr s.data pat.data

/-- The Python exceptions the embedded code can raise. -/
inductive PyError : Type
  | valueError
  | indexError
  | keyError
  | typeError
deriving DecidableEq, Repr

/-- `ClientRecord` from `services/client_api.py`: value object returned by
the lookup methods. -/
structure ClientRecord : Type where
  client_id : String
  name : String
  email : String
deriving DecidableEq, Repr

/-- `AgentResponse` from `agents/base.py`. -/
structure AgentResponse : Type where
  reply_text : String
  end_conversation : Bool := false
deriving DecidableEq, Repr

/-- The surface of `ExternalClientAPI` consumed by `AuthAgent`: the four
async methods, modelled as pure functions (each already returns
`None`/`False` instead of raising, per `services/client_api.py`). -/
structure ExternalClientAPI : Type where
  lookup_by_phone : String → Option ClientRecord
  lookup_by_client_id : String → Option ClientRecord
  send_otp : String → Bool
  verify_otp : String → String → Bool

/-- A session's `state` dict: string keys to string values (the agent only
ever stores strings). -/
abbrev SessState := List (String × String)

-- ── Session-state keys and statuses from auth_agent.py ──

def AUTH_STATUS_KEY : String := "auth_status"

def AUTH_USER_KEY : String := "auth_user_name"

def AUTH_EMAIL_KEY : String := "auth_user_email"

def AUTH_CLIENT_ID_KEY : String := "auth_client_id"

def STATUS_AWAITING_PHONE : String := "awaiting_phone"

def STATUS_AWAITING_CLIENT_ID : String := "awaiting_client_id"

def STATUS_AWAITING_OTP : String := "awaiting_otp"

def STATUS_AUTHENTICATED : String := "authenticated"

/-- `AuthAgent._mask_email`: `local, domain = email.split("@")` raises
`ValueError` unless the split has exactly two parts; `local[0]` raises
`IndexError` on an empty local part. -/
def mask_email (email : String) : Except PyError String :=
  match pySplitOnChar '@' email.data with
  | [loc, domain] =>
      match loc with
      | [] => .error .indexError
      | c :: rest =>
          let masked_local :=
            if (c :: rest).length ≤ 2 then String.mk [c] ++ "***"
            else
              String.mk [c] ++ "***" ++
                String.mk [(c :: rest).getLast (List.cons_ne_nil c rest)]
          .ok (masked_local ++ "@" ++ String.mk domain)
  | _ => .error .valueError

-- ── AuthAgent (agents/auth_agent.py), state passed explicitly ──
-- The Python methods mutate `session_state` in place; the embedding threads
-- the dict and returns it alongside the `AgentResponse`. A raised exception
-- is the `.error` branch (the Python leading underscores of the private
-- helpers are dropped for Lean).

/-- `AuthAgent._initiate_otp`: store the identity keys, attempt OTP send,
and only on success advance to `awaiting_otp` and reveal the masked email.
The email is masked only on the success path (Python line order), so a
malformed stored email surfaces as a `ValueError`/`IndexError` there. -/
def initiate_otp (api : ExternalClientAPI) (client_id name email : String)
    (session_state : SessState) : Except PyError (AgentResponse × SessState) :=
  let st1 := setKey session_state AUTH_CLIENT_ID_KEY client_id
  let st2 := setKey st1 AUTH_USER_KEY name
  let st3 := setKey st2 AUTH_EMAIL_KEY email
  if api.send_otp client_id = false then
    .ok (⟨"⚠️ We found your account but were unable to send the verification code. Please try again later or contact support.",
        false⟩, st3)
  else
    let st4 := setKey st3 AUTH_STATUS_KEY STATUS_AWAITING_OTP
    match mask_email email with
    | .error e => .error e
    | .ok masked =>
        .ok (⟨"👤 Account found: *" ++ name
            ++ "*\n\nA verification code has been sent to *" ++ masked
            ++ "*.\nPlease enter the *6-digit OTP* to complete verification.",
            false⟩, st4)

/-- `AuthAgent._handle_otp`: verify the provided code against the stored
client id; on success set `auth_status` to `authenticated`. -/
def handle_otp (api : ExternalClientAPI) (otp : String)
    (session_state : SessState) : Except PyError (AgentResponse × SessState) :=
  let client_id := (getKey session_state AUTH_CLIENT_ID_KEY).getD ""
  let name := (getKey session_state AUTH_USER_KEY).getD ""
  if api.verify_otp client_id otp then
    let st := setKey session_state AUTH_STATUS_KEY STATUS_AUTHENTICATED
    .ok (⟨"✅ Verified! Welcome, *" ++ name
        ++ "*.\n\nYou have been successfully authenticated.", false⟩, st)
  else
    .ok (⟨"❌ That code is incorrect or has expired.\n\nPlease try again with the correct *6-digit OTP*.",
        false⟩, session_state)

/-- `AuthAgent._handle_client_id`: look up the client code; on a match
delegate to `initiate_otp`, otherwise reply with the not-found error and
leave the state untouched. -/
def handle_client_id (api : ExternalClientAPI) (client_code : String)
    (session_state : SessState) : Except PyError (AgentResponse × SessState) :=
  match api.lookup_by_client_id client_code with
  | none =>
      .ok (⟨"❌ Sorry, I couldn\x27t find an account with that Client ID.\n\nPlease double-check and try again, or contact support for help.",
          false⟩, session_state)
  | some record =>
      initiate_otp api record.client_id record.name record.email session_state

/-- `AuthAgent._handle_phone`: look up the phone; on a match delegate to
`initiate_otp`, otherwise move to `awaiting_client_id` and prompt for the
client code. -/
def handle_phone (api : ExternalClientAPI) (phone : String)
    (session_state : SessState) : Except PyError (AgentResponse × SessState) :=
  match api.lookup_by_phone phone with
  | some record =>
      initiate_otp api record.client_id record.name record.email session_state
  | none =>
      let st := setKey session_state AUTH_STATUS_KEY STATUS_AWAITING_CLIENT_ID
      .ok (⟨"🔍 I couldn\x27t find an account linked to this phone number.\n\nPlease provide your *Client ID* so I can look you up.",
          false⟩, st)

/-- `AuthAgent.handle`: dispatch on `session_state.get("auth_status",
"awaiting_phone")`. The authenticated branch indexes
`session_state[AUTH_USER_KEY]` directly, a `KeyError` if absent. -/
def handle (api : ExternalClientAPI) (message : String)
    (session_state : SessState) : Except PyError (AgentResponse × SessState) :=
  let status := (getKey session_state AUTH_STATUS_KEY).getD
    STATUS_AWAITING_PHONE
  if status = STATUS_AUTHENTICATED then
    match getKey session_state AUTH_USER_KEY with
    | none => .error .keyError
    | some name =>
        .ok (⟨"You are already verified as *" ++ name
            ++ "*. How can I help you today?", false⟩, session_state)
  else if status = STATUS_AWAITING_OTP then
    handle_otp api (pyStrip message) session_state
  else if status = STATUS_AWAITING_CLIENT_ID then
    handle_client_id api (pyStrip message) session_state
  else
    handle_phone api (pyStrip message) session_state

-- ── Session / SessionManager (services/session_manager.py) ──

/-- `Session` dataclass: phone plus the mutable state dict (which defaults
to empty). -/
structure Session : Type where
  user_phone : String
  state : SessState := []
deriving DecidableEq, Repr

/-- `Session.is_authenticated`: `state.get("auth_status") == "authenticated"`. -/
def Session.is_authenticated (s : Session) : Bool :=
  getKey s.state "auth_status" = some "authenticated"

/-- The `SessionManager._sessions` dict, keyed by phone. -/
abbrev SessionStore := List (String × Session)

/-- `SessionManager.get`: retrieve the session, creating and storing a fresh
empty one when the phone is unseen. Returns the session and the updated
store (the Python method mutates `self._sessions`). -/
def SessionManager.get (store : SessionStore) (phone : String) :
    Session × SessionStore :=
  match getKey store phone with
  | some s => (s, store)
  | none =>
      let s : Session := { user_phone := phone }
      (s, setKey store phone s)

/-- `SessionManager.clear`: `self._sessions.pop(phone, None)`. -/
def SessionManager.clear (store : SessionStore) (phone : String) :
    SessionStore :=
  delKey store phone

-- ── MessageRouter.route (services/message_router.py) ──

/-- `MessageRouter.route` as wired in the repository. On the
unauthenticated path the source constructs
`AuthAgent(db_session=db_session, email_service=email_service)`
(message_router.py line 50), but the only `AuthAgent` in the repository
(auth_agent.py line 39) accepts the single argument `client_api`, so the
construction raises `TypeError` before any `handle` call or first-contact
dispatch is reached (`EmailService()` on the preceding line takes no
constructor arguments and succeeds). Only the authenticated branch
completes. -/
def route (store : SessionStore) (phone message : String) :
    Except PyError (AgentResponse × SessionStore) :=
  let got := SessionManager.get store phone
  let session := got.1
  let store1 := got.2
  if session.is_authenticated = false then
    .error .typeError
  else
    .ok (⟨"👋 Hello, *" ++ ((getKey session.state "auth_user_name").getD
        "there")
        ++ "*! You are verified. Task-based features are coming soon.\n\nType *logout* to end your session.",
        false⟩, store1)

/-- Reply produced by `_initiate_otp` when OTP delivery fails
(auth_agent.py lines 112-119). -/
def unableToSendReply : AgentResponse :=
  ⟨"⚠️ We found your account but were unable to send the verification code. Please try again later or contact support.", false⟩

/-- Reply produced by `_handle_otp` for an incorrect or expired code
(auth_agent.py lines 148-154). -/
def wrongOtpReply : AgentResponse :=
  ⟨"❌ That code is incorrect or has expired.\n\nPlease try again with the correct *6-digit OTP*.", false⟩

/-- The round-trip scenario collaborators: a directory resolving
`+15551234567` to Alice Johnson and an OTP channel that always dispatches
and accepts exactly the code `123456`. -/
def apiRoundTrip : ExternalClientAPI :=
  { lookup_by_phone := fun p =>
      if p = "+15551234567" then
        some ⟨"ACME-1001", "Alice Johnson", "alice@example.com"⟩
      else none,
    lookup_by_client_id := fun _ => none,
    send_otp := fun _ => true,
    verify_otp := fun _ code => code = "123456" }

/-- The same directory (also resolving the client code `ACME-1001`) with
an OTP channel whose delivery always fails. -/
def apiSendFail : ExternalClientAPI :=
  { lookup_by_phone := fun p =>
      if p = "+15551234567" then
        some ⟨"ACME-1001", "Alice Johnson", "alice@example.com"⟩
      else none,
    lookup_by_client_id := fun c =>
      if c = "ACME-1001" then
        some ⟨"ACME-1001", "Alice Johnson", "alice@example.com"⟩
      else none,
    send_otp := fun _ => false,
    verify_otp := fun _ _ => false }

deriving instance DecidableEq for Except

-- ── Dictionary lemmas ──

theorem getKey_setKey_self {α : Type} (d : List (String × α)) (k : String)
    (v : α) : getKey (setKey d k v) k = some v := by
  induction d with
  | nil => simp [setKey, getKey]
  | cons p rest ih =>
      obtain ⟨kb, w⟩ := p
      by_cases h : kb = k
      · simp [setKey, h, getKey]
      · simp [setKey, h, getKey, ih]

theorem getKey_setKey_ne {α : Type} (d : List (String × α)) (k k' : String)
    (v : α) (h : k' ≠ k) : getKey (setKey d k v) k' = getKey d k' := by
  induction d with
  | nil => simp [setKey, getKey, Ne.symm h]
  | cons p rest ih =>
      obtain ⟨kb, w⟩ := p
      by_cases hb : kb = k
      · subst hb
        simp [setKey, getKey, Ne.symm h]
      · by_cases hb' : kb = k'
        · simp [setKey, hb, getKey, hb', h, ih]
        · simp [setKey, hb, getKey, hb', ih]

theorem delKey_of_getKey_none {α : Type} (d : List (String × α)) (k : String)
    (h : getKey d k = none) : delKey d k = d := by
  induction d with
  | nil => simp [delKey]
  | cons p rest ih =>
      obtain ⟨kb, w⟩ := p
      by_cases hb : kb = k
      · simp [getKey, hb] at h
      · simp [getKey, hb] at h
        simp [delKey, hb, ih h]

theorem delKey_idem {α : Type} (d : List (String × α)) (k : String) :
    delKey (delKey d k) k = delKey d k := by
  induction d with
  | nil => simp [delKey]
  | cons p rest ih =>
      obtain ⟨kb, w⟩ := p
      by_cases hb : kb = k
      · simp [delKey, hb, ih]
      · simp [delKey, hb, ih]

theorem getKey_delKey_ne {α : Type} (d : List (String × α)) (k k' : String)
    (h : k' ≠ k) : getKey (delKey d k) k' = getKey d k' := by
  induction d with
  | nil => simp [delKey]
  | cons p rest ih =>
      obtain ⟨kb, w⟩ := p
      by_cases hb : kb = k
      · subst hb
        simp [delKey, getKey, Ne.symm h, ih]
      · simp [delKey, hb, getKey, ih]

-- ── Substring lemmas ──

theorem isPrefixL_append_self (p t : List Char) :
    isPrefixL p (p ++ t) = true := by
  induction p with
  | nil => simp [isPrefixL]
  | cons a as ih => simp [isPrefixL, ih]

theorem hasSubstr_append_of_right {t : List Char} (s : List Char)
    {pat : List Char} (h : hasSubstr t pat = true) :
    hasSubstr (s ++ t) pat = true := by
  induction s with
  | nil => simpa using h
  | cons x rest ih => simp [hasSubstr, ih]

theorem hasSubstr_self_append (pat t : List Char) :
    hasSubstr (pat ++ t) pat = true := by
  cases pat with
  | nil =>
      cases t with
      | nil => rfl
      | cons x rest => simp [hasSubstr, isPrefixL]
  | cons a as =>
      simp only [hasSubstr, Bool.or_eq_true]
      left
      exact isPrefixL_append_self (a :: as) t

theorem strContains_middle (a pat b : String) :
    strContains (a ++ pat ++ b) pat = true := by
  show hasSubstr (a ++ pat ++ b).data pat.data = true
  rw [String.data_append, String.data_append, List.append_assoc]
  exact hasSubstr_append_of_right a.data (hasSubstr_self_append pat.data b.data)

-- ── pySplitOnChar lemmas ──

theorem pySplitOnChar_ne_nil (c : Char) (l : List Char) :
    pySplitOnChar c l ≠ [] := by
  cases l with
  | nil => simp [pySplitOnChar]
  | cons x rest =>
      by_cases hx : x = c
      · simp [pySplitOnChar, hx]
      · cases hr : pySplitOnChar c rest with
        | nil => simp [pySplitOnChar, hx, hr]
        | cons h t => simp [pySplitOnChar, hx, hr]

theorem length_pySplitOnChar (c : Char) (l : List Char) :
    (pySplitOnChar c l).length = l.count c + 1 := by
  induction l with
  | nil => simp [pySplitOnChar]
  | cons x rest ih =>
      by_cases hx : x = c
      · subst hx
        simp [pySplitOnChar, List.count_cons, ih]
      · cases hr : pySplitOnChar c rest with
        | nil => exact absurd hr (pySplitOnChar_ne_nil c rest)
        | cons h t =>
            rw [hr] at ih
            simp only [List.length_cons] at ih
            simp [pySplitOnChar, hx, hr, List.count_cons, Ne.symm, hx]
            omega

theorem pySplitOnChar_head (c : Char) (l : List Char) :
    ∃ t, pySplitOnChar c l = l.takeWhile (fun x => x != c) :: t := by
  induction l with
  | nil => exact ⟨[], rfl⟩
  | cons x rest ih =>
      by_cases hx : x = c
      · subst hx
        exact ⟨pySplitOnChar x rest, by simp [pySplitOnChar]⟩
      · obtain ⟨t, ht⟩ := ih
        exact ⟨t, by simp [pySplitOnChar, hx, ht]⟩

theorem pySplitOnChar_no_sep (c : Char) (l : List Char) (h : c ∉ l) :
    pySplitOnChar c l = [l] := by
  induction l with
  | nil => rfl
  | cons x rest ih =>
      have hx : ¬ x = c := fun hh => h (by simp [hh])
      have hrest : c ∉ rest := fun hh => h (List.mem_cons_of_mem _ hh)
      simp [pySplitOnChar, hx, ih hrest]

theorem pySplitOnChar_join (c : Char) (loc domain : List Char)
    (hl : c ∉ loc) (hd : c ∉ domain) :
    pySplitOnChar c (loc ++ c :: domain) = [loc, domain] := by
  induction loc with
  | nil => simp [pySplitOnChar, pySplitOnChar_no_sep c domain hd]
  | cons x rest ih =>
      have hx : ¬ x = c := fun hh => hl (by simp [hh])
      have hrest : c ∉ rest := fun hh => hl (List.mem_cons_of_mem _ hh)
      simp [pySplitOnChar, hx, ih hrest]

-- ── Agent-level helper lemmas ──

theorem getKey_initiate_frame (st : SessState) (cid name email k : String)
    (h1 : k ≠ AUTH_CLIENT_ID_KEY) (h2 : k ≠ AUTH_USER_KEY)
    (h3 : k ≠ AUTH_EMAIL_KEY) :
    getKey (setKey (setKey (setKey st AUTH_CLIENT_ID_KEY cid)
      AUTH_USER_KEY name) AUTH_EMAIL_KEY email) k = getKey st k := by
  rw [getKey_setKey_ne _ _ _ _ h3, getKey_setKey_ne _ _ _ _ h2,
    getKey_setKey_ne _ _ _ _ h1]

theorem initiate_otp_send_fail (api : ExternalClientAPI)
    (cid nm em : String) (st : SessState)
    (hsend : api.send_otp cid = false) :
    initiate_otp api cid nm em st = .ok (unableToSendReply,
      setKey (setKey (setKey st AUTH_CLIENT_ID_KEY cid)
        AUTH_USER_KEY nm) AUTH_EMAIL_KEY em) := by
  unfold initiate_otp
  rw [hsend, if_pos rfl]
  rfl

theorem handle_phone_entry (api : ExternalClientAPI) (input : String)
    (st : SessState) (h0 : getKey st AUTH_STATUS_KEY = none) :
    handle api input st = handle_phone api (pyStrip input) st := by
  unfold handle
  rw [h0]
  rfl

theorem handle_client_id_entry (api : ExternalClientAPI) (input : String)
    (st : SessState)
    (h0 : getKey st AUTH_STATUS_KEY = some STATUS_AWAITING_CLIENT_ID) :
    handle api input st = handle_client_id api (pyStrip input) st := by
  unfold handle
  rw [h0]
  rfl

theorem handle_otp_entry (api : ExternalClientAPI) (input : String)
    (st : SessState)
    (h0 : getKey st AUTH_STATUS_KEY = some STATUS_AWAITING_OTP) :
    handle api input st = handle_otp api (pyStrip input) st := by
  unfold handle
  rw [h0]
  rfl

theorem handle_default_entry (api : ExternalClientAPI) (input : String)
    (st : SessState)
    (h1 : getKey st AUTH_STATUS_KEY ≠ some STATUS_AUTHENTICATED)
    (h2 : getKey st AUTH_STATUS_KEY ≠ some STATUS_AWAITING_OTP)
    (h3 : getKey st AUTH_STATUS_KEY ≠ some STATUS_AWAITING_CLIENT_ID) :
    handle api input st = handle_phone api (pyStrip input) st := by
  unfold handle
  cases hg : getKey st AUTH_STATUS_KEY with
  | none => rfl
  | some v =>
      rw [hg] at h1 h2 h3
      have n1 : ¬ v = STATUS_AUTHENTICATED := fun h => h1 (by rw [h])
      have n2 : ¬ v = STATUS_AWAITING_OTP := fun h => h2 (by rw [h])
      have n3 : ¬ v = STATUS_AWAITING_CLIENT_ID := fun h => h3 (by rw [h])
      show (if v = STATUS_AUTHENTICATED then _ else
        if v = STATUS_AWAITING_OTP then _ else
        if v = STATUS_AWAITING_CLIENT_ID then _ else
        handle_phone api (pyStrip input) st) = _
      rw [if_neg n1, if_neg n2, if_neg n3]

-- ── Claim theorems ──

/-- C7: `_mask_email` maps `local@domain` to the first character of the
local part, three literal mask characters, then — only when the local part
is longer than two characters — its last character, followed by `@` and the
unchanged domain; in particular `alice@example.com` masks to
`a***e@example.com` and `bo@x.com` masks to `b***@x.com`. -/
theorem mask_email_spec (c : Char) (rest domain : List Char)
    (hl : '@' ∉ c :: rest) (hd : '@' ∉ domain) :
    mask_email (String.mk ((c :: rest) ++ '@' :: domain)) =
      .ok (String.mk [c] ++ "***" ++
        (if (c :: rest).length ≤ 2 then ""
         else String.mk [(c :: rest).getLast (List.cons_ne_nil c rest)]) ++
        "@" ++ String.mk domain) ∧
    mask_email "alice@example.com" = .ok "a***e@example.com" ∧
    mask_email "bo@x.com" = .ok "b***@x.com" := by
  refine ⟨?_, by decide, by decide⟩
  unfold mask_email
  rw [show (String.mk ((c :: rest) ++ '@' :: domain)).data
      = (c :: rest) ++ '@' :: domain from rfl]
  rw [pySplitOnChar_join '@' (c :: rest) domain hl hd]
  by_cases hlen : (c :: rest).length ≤ 2
  · simp only [hlen, if_pos hlen]
    refine congrArg _ (String.ext ?_)
    simp [String.data_append]
  · simp only [hlen, if_neg hlen]
    refine congrArg _ (String.ext ?_)
    simp [String.data_append]

/-- Witness for C7 at local part `alice`, domain `example.com`. -/
theorem mask_email_spec_witness :
    mask_email "alice@example.com" = .ok "a***e@example.com" :=
  (mask_email_spec 'a' ['l', 'i', 'c', 'e'] "example.com".data
    (by decide) (by decide)).2.1

/-- C10: `_mask_email` is partial — an input with no `@` or more than one
`@` fails the two-part unpacking (Python `ValueError`), an input starting
with `@` has an empty local part and `local[0]` fails (Python
`IndexError`), and the function succeeds exactly on inputs with one `@`
and a non-empty local part. -/
theorem mask_email_partiality (email : String) :
    (email.data.count '@' ≠ 1 → mask_email email = .error .valueError) ∧
    (email.data.count '@' = 1 → email.data.head? = some '@' →
      mask_email email = .error .indexError) ∧
    ((∃ s, mask_email email = .ok s) ↔
      email.data.count '@' = 1 ∧ email.data.head? ≠ some '@') := by
  have hlen := length_pySplitOnChar '@' email.data
  refine ⟨?_, ?_, ?_⟩
  · intro hcnt
    unfold mask_email
    cases hr : pySplitOnChar '@' email.data with
    | nil => exact absurd hr (pySplitOnChar_ne_nil '@' email.data)
    | cons a t =>
        cases t with
        | nil => rfl
        | cons b t2 =>
            cases t2 with
            | nil =>
                rw [hr] at hlen
                simp at hlen
                exact absurd hlen hcnt
            | cons d t3 => rfl
  · intro hcnt hhead
    obtain ⟨tl, hx⟩ : ∃ tl, email.data = '@' :: tl := by
      cases hdata : email.data with
      | nil => rw [hdata] at hhead; simp at hhead
      | cons x tl =>
          rw [hdata] at hhead
          simp at hhead
          exact ⟨tl, by rw [hhead]⟩
    have hcnt' : tl.count '@' = 0 := by
      rw [hx] at hcnt
      simp [List.count_cons] at hcnt
      exact hcnt
    have hnosep : '@' ∉ tl := by
      rw [← List.count_eq_zero]
      exact hcnt'
    unfold mask_email
    rw [show pySplitOnChar '@' email.data = [[], tl] from by
      rw [hx]
      simp [pySplitOnChar, pySplitOnChar_no_sep '@' tl hnosep]]
  · constructor
    · rintro ⟨s, hs⟩
      unfold mask_email at hs
      cases hr : pySplitOnChar '@' email.data with
      | nil => exact absurd hr (pySplitOnChar_ne_nil '@' email.data)
      | cons a t =>
          rw [hr] at hs
          cases t with
          | nil => simp at hs
          | cons b t2 =>
              cases t2 with
              | nil =>
                  cases a with
                  | nil => simp at hs
                  | cons cc r =>
                      rw [hr] at hlen
                      simp at hlen
                      refine ⟨hlen, ?_⟩
                      obtain ⟨t', ht'⟩ := pySplitOnChar_head '@' email.data
                      rw [hr] at ht'
                      cases hdata : email.data with
                      | nil =>
                          rw [hdata] at ht'
                          simp [List.takeWhile] at ht'
                      | cons x tl =>
                          rw [hdata] at ht'
                          by_cases hxc : x = '@'
                          · subst hxc
                            simp [List.takeWhile_cons] at ht'
                          · simp [hdata, hxc]
              | cons d t3 => simp at hs
    · rintro ⟨hcnt, hhead⟩
      obtain ⟨x, tl, hdata⟩ : ∃ x tl, email.data = x :: tl := by
        cases hd : email.data with
        | nil => rw [hd] at hcnt; simp at hcnt
        | cons x tl => exact ⟨x, tl, rfl⟩
      have hxc : ¬ x = '@' := by
        rw [hdata] at hhead
        simp at hhead
        exact hhead
      rw [hcnt] at hlen
      obtain ⟨t', ht'⟩ := pySplitOnChar_head '@' email.data
      cases hr : pySplitOnChar '@' email.data with
      | nil => exact absurd hr (pySplitOnChar_ne_nil '@' email.data)
      | cons a t =>
          rw [hr] at hlen ht'
          cases t with
          | nil => simp at hlen
          | cons b t2 =>
              cases t2 with
              | nil =>
                  have ha : a = x :: tl.takeWhile (fun y => y != '@') := by
                    rw [hdata] at ht'
                    simp [List.takeWhile_cons, hxc] at ht'
                    exact ht'.1
                  refine ⟨(if (x :: tl.takeWhile
                        (fun y => y != '@')).length ≤ 2
                      then String.mk [x] ++ "***"
                      else String.mk [x] ++ "***" ++
                        String.mk [(x :: tl.takeWhile
                          (fun y => y != '@')).getLast
                          (List.cons_ne_nil _ _)]) ++ "@" ++ String.mk b, ?_⟩
                  unfold mask_email
                  rw [hr, ha]
              | cons d t3 => simp at hlen

/-- Witness for C10: the three failure shapes and one success, concretely. -/
theorem mask_email_partiality_witness :
    mask_email "noat" = .error .valueError ∧
    mask_email "a@b@c" = .error .valueError ∧
    mask_email "@x.com" = .error .indexError ∧
    ∃ s, mask_email "bo@x.com" = .ok s :=
  ⟨(mask_email_partiality "noat").1 (by decide),
   (mask_email_partiality "a@b@c").1 (by decide),
   (mask_email_partiality "@x.com").2.1 (by decide) (by decide),
   (mask_email_partiality "bo@x.com").2.2.mpr ⟨by decide, by decide⟩⟩

/-- C8: `SessionManager.get` on an unseen phone creates, stores and returns
a session for that phone with an empty state and
`is_authenticated = false`; on a phone already present it returns the
stored session and leaves the store unchanged. It is a total function
(never fails). -/
theorem session_get_spec (store : SessionStore) (phone : String) :
    (getKey store phone = none →
      SessionManager.get store phone =
        ({ user_phone := phone, state := [] },
         setKey store phone { user_phone := phone, state := [] }) ∧
      Session.is_authenticated { user_phone := phone, state := [] } = false ∧
      getKey (setKey store phone { user_phone := phone, state := [] }) phone
        = some { user_phone := phone, state := [] }) ∧
    (∀ s, getKey store phone = some s →
      SessionManager.get store phone = (s, store)) := by
  constructor
  · intro h
    refine ⟨?_, rfl, getKey_setKey_self store phone _⟩
    unfold SessionManager.get
    rw [h]
  · intro s h
    unfold SessionManager.get
    rw [h]

/-- Witness for C8: a fresh phone on the empty store, then the same phone
on the store `get` produced. -/
theorem session_get_spec_witness :
    SessionManager.get [] "+15551234567" =
      ({ user_phone := "+15551234567", state := [] },
       setKey [] "+15551234567" { user_phone := "+15551234567", state := [] })
    ∧ SessionManager.get
        [("+15551234567", { user_phone := "+15551234567", state := [] })]
        "+15551234567" =
      ({ user_phone := "+15551234567", state := [] },
       [("+15551234567", { user_phone := "+15551234567", state := [] })]) :=
  ⟨((session_get_spec [] "+15551234567").1 rfl).1,
   (session_get_spec
      [("+15551234567", { user_phone := "+15551234567", state := [] })]
      "+15551234567").2 _ rfl⟩

/-- C9: `SessionManager.clear` is idempotent — clearing a never-created or
already-cleared phone is a no-op (and, being a total function, cannot
raise), clearing twice equals clearing once, and clearing one phone never
affects the session stored under a different phone. -/
theorem session_clear_spec (store : SessionStore) (phone other : String) :
    (getKey store phone = none → SessionManager.clear store phone = store) ∧
    SessionManager.clear (SessionManager.clear store phone) phone =
      SessionManager.clear store phone ∧
    (other ≠ phone →
      getKey (SessionManager.clear store phone) other = getKey store other) :=
  ⟨fun h => delKey_of_getKey_none store phone h,
   delKey_idem store phone,
   fun h => getKey_delKey_ne store phone other h⟩

/-- Witness for C9: clearing an absent phone on the empty store, and
clearing one phone with another phone's session left intact. -/
theorem session_clear_spec_witness :
    SessionManager.clear [] "+15551230000" = [] ∧
    getKey (SessionManager.clear
        [("+15559876543", ({ user_phone := "+15559876543" } : Session))]
        "+15551230000") "+15559876543"
      = some { user_phone := "+15559876543" } :=
  ⟨(session_clear_spec [] "+15551230000" "+15559876543").1 rfl,
   (session_clear_spec
      [("+15559876543", { user_phone := "+15559876543" })]
      "+15551230000" "+15559876543").2.2 (by decide)⟩

/-- C1: Variant A round-trip — with a directory resolving `+15551234567`
to Alice Johnson's record and an OTP channel that dispatches and accepts
`123456`, the first `handle` on the empty session state moves
`auth_status` to `awaiting_otp` with a reply mentioning Alice Johnson, and
the second `handle` with `123456` moves it to `authenticated` with a reply
containing `Verified`. -/
theorem auth_roundtrip (api : ExternalClientAPI)
    (hlook : api.lookup_by_phone "+15551234567" =
      some ⟨"ACME-1001", "Alice Johnson", "alice@example.com"⟩)
    (hsend : api.send_otp "ACME-1001" = true)
    (hver : api.verify_otp "ACME-1001" "123456" = true) :
    ∃ r1 st1 r2 st2,
      handle api "+15551234567" [] = .ok (r1, st1) ∧
      getKey st1 AUTH_STATUS_KEY = some STATUS_AWAITING_OTP ∧
      strContains r1.reply_text "Alice Johnson" = true ∧
      handle api "123456" st1 = .ok (r2, st2) ∧
      getKey st2 AUTH_STATUS_KEY = some STATUS_AUTHENTICATED ∧
      strContains r2.reply_text "Verified" = true := by
  refine ⟨⟨"👤 Account found: *Alice Johnson*\n\nA verification code has been sent to *a***e@example.com*.\nPlease enter the *6-digit OTP* to complete verification.", false⟩,
    [("auth_client_id", "ACME-1001"), ("auth_user_name", "Alice Johnson"),
     ("auth_user_email", "alice@example.com"), ("auth_status", "awaiting_otp")],
    ⟨"✅ Verified! Welcome, *Alice Johnson*.\n\nYou have been successfully authenticated.", false⟩,
    [("auth_client_id", "ACME-1001"), ("auth_user_name", "Alice Johnson"),
     ("auth_user_email", "alice@example.com"), ("auth_status", "authenticated")],
    ?_, by decide, by decide, ?_, by decide, by decide⟩
  · rw [show handle api "+15551234567" [] =
        handle_phone api "+15551234567" [] from rfl]
    unfold handle_phone
    rw [hlook]
    show initiate_otp api "ACME-1001" "Alice Johnson" "alice@example.com" [] = _
    rw [show (initiate_otp api "ACME-1001" "Alice Johnson" "alice@example.com" [] : Except PyError (AgentResponse × SessState)) =
        if api.send_otp "ACME-1001" = false
        then Except.ok (unableToSendReply,
          [("auth_client_id", "ACME-1001"), ("auth_user_name", "Alice Johnson"), ("auth_user_email", "alice@example.com")])
        else Except.ok (⟨"👤 Account found: *Alice Johnson*\n\nA verification code has been sent to *a***e@example.com*.\nPlease enter the *6-digit OTP* to complete verification.", false⟩,
          [("auth_client_id", "ACME-1001"), ("auth_user_name", "Alice Johnson"),
           ("auth_user_email", "alice@example.com"), ("auth_status", "awaiting_otp")]) from rfl]
    rw [hsend]
    exact if_neg (by decide)
  · rw [show handle api "123456"
        [("auth_client_id", "ACME-1001"), ("auth_user_name", "Alice Johnson"),
         ("auth_user_email", "alice@example.com"), ("auth_status", "awaiting_otp")] =
        (if api.verify_otp "ACME-1001" "123456" = true
         then Except.ok (⟨"✅ Verified! Welcome, *Alice Johnson*.\n\nYou have been successfully authenticated.", false⟩,
           [("auth_client_id", "ACME-1001"), ("auth_user_name", "Alice Johnson"),
            ("auth_user_email", "alice@example.com"), ("auth_status", "authenticated")])
         else Except.ok (wrongOtpReply,
           [("auth_client_id", "ACME-1001"), ("auth_user_name", "Alice Johnson"),
            ("auth_user_email", "alice@example.com"), ("auth_status", "awaiting_otp")])) from rfl]
    rw [hver]
    exact if_pos rfl

/-- Witness for C1 with the concrete collaborators `apiRoundTrip`. -/
theorem auth_roundtrip_witness :
    ∃ r1 st1 r2 st2,
      handle apiRoundTrip "+15551234567" [] = .ok (r1, st1) ∧
      getKey st1 AUTH_STATUS_KEY = some STATUS_AWAITING_OTP ∧
      strContains r1.reply_text "Alice Johnson" = true ∧
      handle apiRoundTrip "123456" st1 = .ok (r2, st2) ∧
      getKey st2 AUTH_STATUS_KEY = some STATUS_AUTHENTICATED ∧
      strContains r2.reply_text "Verified" = true :=
  auth_roundtrip apiRoundTrip (by decide) rfl (by decide)

/-- C2: when the lookup succeeds (from the initial state via phone, or
from `awaiting_client_id` via client code) but OTP delivery fails,
`handle` replies with the delivery-failure message and `auth_status`
keeps its prior value — in particular it does not become `awaiting_otp`,
so the party can retry. -/
theorem otp_send_failure_preserves_status (api : ExternalClientAPI)
    (st : SessState) (input : String) (record : ClientRecord) :
    (getKey st AUTH_STATUS_KEY = none →
     api.lookup_by_phone (pyStrip input) = some record →
     api.send_otp record.client_id = false →
     ∃ st', handle api input st = .ok (unableToSendReply, st') ∧
       getKey st' AUTH_STATUS_KEY = getKey st AUTH_STATUS_KEY ∧
       getKey st' AUTH_STATUS_KEY ≠ some STATUS_AWAITING_OTP) ∧
    (getKey st AUTH_STATUS_KEY = some STATUS_AWAITING_CLIENT_ID →
     api.lookup_by_client_id (pyStrip input) = some record →
     api.send_otp record.client_id = false →
     ∃ st', handle api input st = .ok (unableToSendReply, st') ∧
       getKey st' AUTH_STATUS_KEY = getKey st AUTH_STATUS_KEY ∧
       getKey st' AUTH_STATUS_KEY ≠ some STATUS_AWAITING_OTP) := by
  constructor
  · intro h0 hlook hsend
    have step : handle api input st = .ok (unableToSendReply,
        setKey (setKey (setKey st AUTH_CLIENT_ID_KEY record.client_id)
          AUTH_USER_KEY record.name) AUTH_EMAIL_KEY record.email) := by
      rw [handle_phone_entry api input st h0]
      unfold handle_phone
      rw [hlook]
      show initiate_otp api record.client_id record.name record.email st = _
      exact initiate_otp_send_fail api _ _ _ st hsend
    refine ⟨_, step, ?_, ?_⟩
    · exact getKey_initiate_frame st _ _ _ _ (by decide) (by decide) (by decide)
    · rw [getKey_initiate_frame st _ _ _ _ (by decide) (by decide) (by decide),
        h0]
      simp
  · intro h0 hlook hsend
    have step : handle api input st = .ok (unableToSendReply,
        setKey (setKey (setKey st AUTH_CLIENT_ID_KEY record.client_id)
          AUTH_USER_KEY record.name) AUTH_EMAIL_KEY record.email) := by
      rw [handle_client_id_entry api input st h0]
      unfold handle_client_id
      rw [hlook]
      show initiate_otp api record.client_id record.name record.email st = _
      exact initiate_otp_send_fail api _ _ _ st hsend
    refine ⟨_, step, ?_, ?_⟩
    · exact getKey_initiate_frame st _ _ _ _ (by decide) (by decide) (by decide)
    · rw [getKey_initiate_frame st _ _ _ _ (by decide) (by decide) (by decide),
        h0]
      simp [STATUS_AWAITING_CLIENT_ID, STATUS_AWAITING_OTP]

/-- Witness for C2 with `apiSendFail` on the empty session state. -/
theorem otp_send_failure_preserves_status_witness :
    ∃ st', handle apiSendFail "+15551234567" [] =
        .ok (unableToSendReply, st') ∧
      getKey st' AUTH_STATUS_KEY = getKey ([] : SessState) AUTH_STATUS_KEY ∧
      getKey st' AUTH_STATUS_KEY ≠ some STATUS_AWAITING_OTP :=
  (otp_send_failure_preserves_status apiSendFail [] "+15551234567"
    ⟨"ACME-1001", "Alice Johnson", "alice@example.com"⟩).1 rfl (by decide) rfl

/-- C3 counterexample: with the round-trip directory but failing OTP
delivery, a first contact from the empty session state leaves the session
state holding the three identity keys, not the prior (empty) mapping —
the claim that no keys are newly stored on delivery failure is false. -/
theorem otp_send_failure_mutates_state_cex :
    handle apiSendFail "+15551234567" [] = .ok (unableToSendReply,
      [("auth_client_id", "ACME-1001"), ("auth_user_name", "Alice Johnson"),
       ("auth_user_email", "alice@example.com")]) ∧
    ([("auth_client_id", "ACME-1001"), ("auth_user_name", "Alice Johnson"),
      ("auth_user_email", "alice@example.com")] : SessState) ≠ [] :=
  ⟨rfl, by decide⟩

/-- C3 amended: for every session state from which `handle` attempts OTP
issuance (the default dispatch — `auth_status` absent, `awaiting_phone`,
or any unrecognised value — with a phone match, and the
`awaiting_client_id` state with a client-code match; `authenticated` and
`awaiting_otp` states never attempt issuance), a failed `send_otp` yields
the delivery-failure reply and a state in which `auth_status` and every
key other than the three identity keys keep their prior values, while
`auth_client_id`, `auth_user_name`, `auth_user_email` are stored with the
record's values (written before the send attempt, not rolled back). -/
theorem otp_send_failure_frame (api : ExternalClientAPI)
    (st : SessState) (input : String) (record : ClientRecord) :
    (getKey st AUTH_STATUS_KEY ≠ some STATUS_AUTHENTICATED →
     getKey st AUTH_STATUS_KEY ≠ some STATUS_AWAITING_OTP →
     getKey st AUTH_STATUS_KEY ≠ some STATUS_AWAITING_CLIENT_ID →
     api.lookup_by_phone (pyStrip input) = some record →
     api.send_otp record.client_id = false →
     handle api input st = .ok (unableToSendReply,
       setKey (setKey (setKey st AUTH_CLIENT_ID_KEY record.client_id)
         AUTH_USER_KEY record.name) AUTH_EMAIL_KEY record.email)) ∧
    (getKey st AUTH_STATUS_KEY = some STATUS_AWAITING_CLIENT_ID →
     api.lookup_by_client_id (pyStrip input) = some record →
     api.send_otp record.client_id = false →
     handle api input st = .ok (unableToSendReply,
       setKey (setKey (setKey st AUTH_CLIENT_ID_KEY record.client_id)
         AUTH_USER_KEY record.name) AUTH_EMAIL_KEY record.email)) ∧
    (∀ k, k ≠ AUTH_CLIENT_ID_KEY → k ≠ AUTH_USER_KEY → k ≠ AUTH_EMAIL_KEY →
      getKey (setKey (setKey (setKey st AUTH_CLIENT_ID_KEY record.client_id)
        AUTH_USER_KEY record.name) AUTH_EMAIL_KEY record.email) k
        = getKey st k) ∧
    getKey (setKey (setKey (setKey st AUTH_CLIENT_ID_KEY record.client_id)
      AUTH_USER_KEY record.name) AUTH_EMAIL_KEY record.email)
      AUTH_STATUS_KEY = getKey st AUTH_STATUS_KEY ∧
    getKey (setKey (setKey (setKey st AUTH_CLIENT_ID_KEY record.client_id)
      AUTH_USER_KEY record.name) AUTH_EMAIL_KEY record.email)
      AUTH_CLIENT_ID_KEY = some record.client_id ∧
    getKey (setKey (setKey (setKey st AUTH_CLIENT_ID_KEY record.client_id)
      AUTH_USER_KEY record.name) AUTH_EMAIL_KEY record.email)
      AUTH_USER_KEY = some record.name ∧
    getKey (setKey (setKey (setKey st AUTH_CLIENT_ID_KEY record.client_id)
      AUTH_USER_KEY record.name) AUTH_EMAIL_KEY record.email)
      AUTH_EMAIL_KEY = some record.email := by
  refine ⟨?_, ?_, ?_, ?_, ?_, ?_, ?_⟩
  · intro h1 h2 h3 hlook hsend
    rw [handle_default_entry api input st h1 h2 h3]
    unfold handle_phone
    rw [hlook]
    show initiate_otp api record.client_id record.name record.email st = _
    exact initiate_otp_send_fail api _ _ _ st hsend
  · intro h0 hlook hsend
    rw [handle_client_id_entry api input st h0]
    unfold handle_client_id
    rw [hlook]
    show initiate_otp api record.client_id record.name record.email st = _
    exact initiate_otp_send_fail api _ _ _ st hsend
  · intro k h1 h2 h3
    exact getKey_initiate_frame st _ _ _ k h1 h2 h3
  · exact getKey_initiate_frame st _ _ _ _ (by decide) (by decide) (by decide)
  · rw [getKey_setKey_ne _ _ _ _ (by decide),
      getKey_setKey_ne _ _ _ _ (by decide)]
    exact getKey_setKey_self _ _ _
  · rw [getKey_setKey_ne _ _ _ _ (by decide)]
    exact getKey_setKey_self _ _ _
  · exact getKey_setKey_self _ _ _

/-- Witness for the amended C3 with `apiSendFail`: once from an explicit
`awaiting_phone` state via the phone path, once from `awaiting_client_id`
via the client-code path. -/
theorem otp_send_failure_frame_witness :
    handle apiSendFail "+15551234567" [("auth_status", "awaiting_phone")] =
      .ok (unableToSendReply,
        setKey (setKey (setKey [("auth_status", "awaiting_phone")]
          AUTH_CLIENT_ID_KEY "ACME-1001") AUTH_USER_KEY "Alice Johnson")
          AUTH_EMAIL_KEY "alice@example.com") ∧
    handle apiSendFail "ACME-1001" [("auth_status", "awaiting_client_id")] =
      .ok (unableToSendReply,
        setKey (setKey (setKey [("auth_status", "awaiting_client_id")]
          AUTH_CLIENT_ID_KEY "ACME-1001") AUTH_USER_KEY "Alice Johnson")
          AUTH_EMAIL_KEY "alice@example.com") :=
  ⟨(otp_send_failure_frame apiSendFail [("auth_status", "awaiting_phone")]
      "+15551234567" ⟨"ACME-1001", "Alice Johnson", "alice@example.com"⟩).1
      (by decide) (by decide) (by decide) (by decide) rfl,
   (otp_send_failure_frame apiSendFail [("auth_status", "awaiting_client_id")]
      "ACME-1001" ⟨"ACME-1001", "Alice Johnson", "alice@example.com"⟩).2.1
      rfl (by decide) rfl⟩

/-- C4: `MessageRouter.route` on any unauthenticated session raises
`TypeError` — the source constructs
`AuthAgent(db_session=db_session, email_service=email_service)` while the
repository's `AuthAgent.__init__` accepts only `client_api`, so the agent
is never invoked and no reply is returned; the first-contact dispatch at
message_router.py lines 53-57 is unreachable. -/
theorem router_unauthenticated_type_error (store : SessionStore)
    (phone message : String)
    (hauth : Session.is_authenticated (SessionManager.get store phone).1
      = false) :
    route store phone message = .error .typeError := by
  simp [route, hauth]

/-- Witness for C4: a first contact from an unseen phone hits the
constructor `TypeError`. -/
theorem router_unauthenticated_type_error_witness :
    route [] "+15551234567" "hello" = .error .typeError :=
  router_unauthenticated_type_error [] "+15551234567" "hello" rfl

/-- C5: from `awaiting_otp`, a code the OTP channel rejects leaves the
whole session state unchanged (so `auth_status` stays `awaiting_otp` and
`auth_client_id`, `auth_user_name`, `auth_user_email` are untouched) with
the retry reply, and a subsequent code the channel accepts still
transitions `auth_status` to `authenticated`. -/
theorem wrong_then_right_otp (api : ExternalClientAPI) (st : SessState)
    (code : String)
    (hst : getKey st AUTH_STATUS_KEY = some STATUS_AWAITING_OTP)
    (hbad : api.verify_otp ((getKey st AUTH_CLIENT_ID_KEY).getD "")
      (pyStrip code) = false) :
    handle api code st = .ok (wrongOtpReply, st) ∧
    (∀ code2, api.verify_otp ((getKey st AUTH_CLIENT_ID_KEY).getD "")
        (pyStrip code2) = true →
      ∃ resp, handle api code2 st =
        .ok (resp, setKey st AUTH_STATUS_KEY STATUS_AUTHENTICATED) ∧
        getKey (setKey st AUTH_STATUS_KEY STATUS_AUTHENTICATED)
          AUTH_STATUS_KEY = some STATUS_AUTHENTICATED) := by
  constructor
  · rw [handle_otp_entry api code st hst]
    unfold handle_otp
    show (if api.verify_otp ((getKey st AUTH_CLIENT_ID_KEY).getD "")
          (pyStrip code) = true
        then Except.ok (⟨"✅ Verified! Welcome, *"
            ++ (getKey st AUTH_USER_KEY).getD ""
            ++ "*.\n\nYou have been successfully authenticated.", false⟩,
          setKey st AUTH_STATUS_KEY STATUS_AUTHENTICATED)
        else Except.ok (wrongOtpReply, st)) = _
    rw [hbad]
    exact if_neg (by decide)
  · intro code2 hgood
    have step : handle api code2 st = .ok (⟨"✅ Verified! Welcome, *"
          ++ (getKey st AUTH_USER_KEY).getD ""
          ++ "*.\n\nYou have been successfully authenticated.", false⟩,
        setKey st AUTH_STATUS_KEY STATUS_AUTHENTICATED) := by
      rw [handle_otp_entry api code2 st hst]
      unfold handle_otp
      show (if api.verify_otp ((getKey st AUTH_CLIENT_ID_KEY).getD "")
            (pyStrip code2) = true
          then Except.ok (⟨"✅ Verified! Welcome, *"
              ++ (getKey st AUTH_USER_KEY).getD ""
              ++ "*.\n\nYou have been successfully authenticated.", false⟩,
            setKey st AUTH_STATUS_KEY STATUS_AUTHENTICATED)
          else Except.ok (wrongOtpReply, st)) = _
      rw [hgood]
      exact if_pos rfl
    exact ⟨_, step, getKey_setKey_self st AUTH_STATUS_KEY STATUS_AUTHENTICATED⟩

/-- Witness for C5: wrong code `000000` then right code `123456` against
`apiRoundTrip` from the post-lookup state. -/
theorem wrong_then_right_otp_witness :
    handle apiRoundTrip "000000"
      [("auth_client_id", "ACME-1001"), ("auth_user_name", "Alice Johnson"),
       ("auth_user_email", "alice@example.com"),
       ("auth_status", "awaiting_otp")] =
      .ok (wrongOtpReply,
        [("auth_client_id", "ACME-1001"),
         ("auth_user_name", "Alice Johnson"),
         ("auth_user_email", "alice@example.com"),
         ("auth_status", "awaiting_otp")]) ∧
    ∃ resp, handle apiRoundTrip "123456"
        [("auth_client_id", "ACME-1001"),
         ("auth_user_name", "Alice Johnson"),
         ("auth_user_email", "alice@example.com"),
         ("auth_status", "awaiting_otp")] =
      .ok (resp, setKey
        [("auth_client_id", "ACME-1001"),
         ("auth_user_name", "Alice Johnson"),
         ("auth_user_email", "alice@example.com"),
         ("auth_status", "awaiting_otp")]
        AUTH_STATUS_KEY STATUS_AUTHENTICATED) ∧
      getKey (setKey
        [("auth_client_id", "ACME-1001"),
         ("auth_user_name", "Alice Johnson"),
         ("auth_user_email", "alice@example.com"),
         ("auth_status", "awaiting_otp")]
        AUTH_STATUS_KEY STATUS_AUTHENTICATED) AUTH_STATUS_KEY
        = some STATUS_AUTHENTICATED :=
  ⟨(wrong_then_right_otp apiRoundTrip
      [("auth_client_id", "ACME-1001"), ("auth_user_name", "Alice Johnson"),
       ("auth_user_email", "alice@example.com"),
       ("auth_status", "awaiting_otp")]
      "000000" rfl (by decide)).1,
   (wrong_then_right_otp apiRoundTrip
      [("auth_client_id", "ACME-1001"), ("auth_user_name", "Alice Johnson"),
       ("auth_user_email", "alice@example.com"),
       ("auth_status", "awaiting_otp")]
      "000000" rfl (by decide)).2 "123456" (by decide)⟩

/-- C6: for an authenticated session state storing a display name, any
message yields the already-verified reply containing that name, the
session state is returned unchanged, and the result does not depend on
the external API at all — no lookup or OTP call can influence it. -/
theorem authenticated_noop (api : ExternalClientAPI) (st : SessState)
    (msg name : String)
    (hst : getKey st AUTH_STATUS_KEY = some STATUS_AUTHENTICATED)
    (hname : getKey st AUTH_USER_KEY = some name) :
    handle api msg st =
      .ok (⟨"You are already verified as *" ++ name ++
        "*. How can I help you today?", false⟩, st) ∧
    strContains ("You are already verified as *" ++ name ++
      "*. How can I help you today?") name = true ∧
    (∀ api2 : ExternalClientAPI, handle api2 msg st = handle api msg st) := by
  have e : ∀ a : ExternalClientAPI, handle a msg st =
      .ok (⟨"You are already verified as *" ++ name ++
        "*. How can I help you today?", false⟩, st) := by
    intro a
    unfold handle
    rw [hst, hname]
    rfl
  exact ⟨e api,
    strContains_middle "You are already verified as *" name
      "*. How can I help you today?",
    fun api2 => (e api2).trans (e api).symm⟩

/-- Witness for C6 at a concrete authenticated state. -/
theorem authenticated_noop_witness :
    handle apiRoundTrip "anything"
      [("auth_status", "authenticated"),
       ("auth_user_name", "Alice Johnson")] =
      .ok (⟨"You are already verified as *" ++ "Alice Johnson" ++
        "*. How can I help you today?", false⟩,
        [("auth_status", "authenticated"),
         ("auth_user_name", "Alice Johnson")]) ∧
    strContains ("You are already verified as *" ++ "Alice Johnson" ++
      "*. How can I help you today?") "Alice Johnson" = true :=
  ⟨(authenticated_noop apiRoundTrip
      [("auth_status", "authenticated"),
       ("auth_user_name", "Alice Johnson")]
      "anything" "Alice Johnson" rfl rfl).1,
   (authenticated_noop apiRoundTrip
      [("auth_status", "authenticated"),
       ("auth_user_name", "Alice Johnson")]
      "anything" "Alice Johnson" rfl rfl).2.1⟩
